import Mathlib

/-!
Shallow embedding of the altitude-triggered micro-meteorite collector door
controller from `src/experiments/micro-meterorite/collector_arduino.py`
(the variant with the full fault-recovery machinery; the Raspberry Pi variant
`meteorite_collector.py` shares the identical hysteresis evaluation and
actuator-flag discipline).

The controller's mutable state is three module-level Python globals:
  * `collector_is_open : bool`      -- the logical actuator state
  * `bme280_sensor`  (None-able)    -- altitude-source handle; None = Faulted
  * `collector_servo` (None-able)   -- actuator-driver handle; None = Faulted
We embed the two handles as booleans (`true` = handle present / Ready).

External nondeterminism (hardware outcomes) is passed in explicitly per
cycle: the result of each `initialize_bme280()` / `setup_servo()` attempt,
the outcome of each servo-angle assignment, and the result of reading
`bme280_sensor.altitude` (a value, `None`, a `RuntimeError`, or any other
exception). Observable side effects -- `time.sleep` calls and issued actuator
commands -- are recorded as an event trace, so that claims about delays and
about which commands are issued become statements about the trace.
-/

namespace Collector

/-- `ALTITUDE_OPEN = 20000` (collector_arduino.py line 19). -/
def ALTITUDE_OPEN : ℚ := 20000

/-- `ALTITUDE_CLOSE = 18000` (collector_arduino.py line 20). -/
def ALTITUDE_CLOSE : ℚ := 18000

/-- Outcome of one servo-angle assignment (`collector_servo.angle = ...`):
either it takes effect or it raises an exception. -/
inductive CmdOutcome
  | success
  | failure
deriving DecidableEq, Repr, Fintype

/-- Observable side effects of the loop body: `time.sleep(secs)` calls and
actuator commands (with whether the servo write succeeded). -/
inductive Event
  | sleep (secs : ℕ)
  | cmdOpen (ok : Bool)
  | cmdClose (ok : Bool)
deriving DecidableEq, Repr

/-- The controller's mutable globals. `bme280_ok`/`servo_ok` stand for
`bme280_sensor is not None` / `collector_servo is not None`. -/
structure CState where
  collector_is_open : Bool
  bme280_ok : Bool
  servo_ok : Bool
deriving DecidableEq, Repr, Fintype

/-- Result of evaluating `bme280_sensor.altitude` once. -/
inductive ReadResult
  | value (alt : ℚ)
  | noneVal
  | runtimeError
  | otherError
deriving DecidableEq, Repr

/-- The hardware outcomes one cycle of the loop can consume: the results of
a BME280 re-init attempt and a servo re-init attempt (used only when the
corresponding handle is None), the outcome of the `close_collector_door()`
re-asserted after a successful servo re-init, the altitude read, and the
outcome of the servo write of the hysteresis-commanded transition. -/
structure CycleEnv where
  bmeInit : Bool
  servoInit : Bool
  reinitClose : CmdOutcome
  read : ReadResult
  cmd : CmdOutcome
deriving DecidableEq, Repr

/-- `open_collector_door()` (collector_arduino.py lines 75-86): if the servo
handle is present, write the open angle; on success set
`collector_is_open = True`, on an exception print and leave everything
unchanged. If the handle is absent, print and do nothing. -/
def open_collector_door (st : CState) (o : CmdOutcome) : CState × List Event :=
  if st.servo_ok then
    match o with
    | .success => ({ st with collector_is_open := true }, [.cmdOpen true])
    | .failure => (st, [.cmdOpen false])
  else (st, [])

/-- `close_collector_door()` (collector_arduino.py lines 88-99), symmetric. -/
def close_collector_door (st : CState) (o : CmdOutcome) : CState × List Event :=
  if st.servo_ok then
    match o with
    | .success => ({ st with collector_is_open := false }, [.cmdClose true])
    | .failure => (st, [.cmdClose false])
  else (st, [])

/-- The hysteresis evaluation (collector_arduino.py lines 152-160):
open when currently closed and strictly above `ALTITUDE_OPEN`; close when
currently open and strictly below `ALTITUDE_CLOSE`; otherwise do nothing. -/
def evalStep (st : CState) (alt : ℚ) (o : CmdOutcome) : CState × List Event :=
  if st.collector_is_open = false ∧ alt > ALTITUDE_OPEN then
    open_collector_door st o
  else if st.collector_is_open = true ∧ alt < ALTITUDE_CLOSE then
    close_collector_door st o
  else (st, [])

/-- The `try`/`except` block plus the trailing poll sleep (collector_arduino.py
lines 143-177): read the altitude; `None` sleeps 10 and `continue`s (skipping
the 15 s poll sleep); a value runs the hysteresis evaluation then sleeps 15;
`RuntimeError` sleeps 5, drops the sensor handle, then sleeps 15; any other
exception drops both handles, sleeps 10, then sleeps 15. -/
def cycleRead (st : CState) (e : CycleEnv) : CState × List Event :=
  match e.read with
  | .value alt =>
      let r := evalStep st alt e.cmd
      (r.1, r.2 ++ [.sleep 15])
  | .noneVal => (st, [.sleep 10])
  | .runtimeError => ({ st with bme280_ok := false }, [.sleep 5, .sleep 15])
  | .otherError =>
      ({ st with bme280_ok := false, servo_ok := false }, [.sleep 10, .sleep 15])

/-- The servo re-init guard (collector_arduino.py lines 131-140): when the
servo handle is None, sleep 5 then attempt `setup_servo()`; on failure sleep
25 and `continue`; on success re-assert `close_collector_door()` and fall
through to the read phase. -/
def cycleServo (st : CState) (e : CycleEnv) : CState × List Event :=
  if st.servo_ok = false then
    if e.servoInit = false then
      (st, [.sleep 5, .sleep 25])
    else
      let c := close_collector_door { st with servo_ok := true } e.reinitClose
      let r := cycleRead c.1 e
      (r.1, .sleep 5 :: (c.2 ++ r.2))
  else
    cycleRead st e

/-- One full iteration of the `while True` body (collector_arduino.py lines
121-177), starting with the BME280 re-init guard (lines 123-129): when the
sensor handle is None, sleep 5 then attempt `initialize_bme280()`; on failure
sleep 25 and `continue`; on success fall through to the servo guard. -/
def cycle (st : CState) (e : CycleEnv) : CState × List Event :=
  if st.bme280_ok = false then
    if e.bmeInit = false then
      (st, [.sleep 5, .sleep 25])
    else
      let r := cycleServo { st with bme280_ok := true } e
      (r.1, .sleep 5 :: r.2)
  else
    cycleServo st e

/-- Several consecutive loop iterations, concatenating their event traces. -/
def run (st : CState) : List CycleEnv → CState × List Event
  | [] => (st, [])
  | e :: es =>
      let r := cycle st e
      let t := run r.1 es
      (t.1, r.2 ++ t.2)

/-- One loop-boundary input: either the hardware outcomes for a full cycle, or
an external cancellation (a `BaseException` such as `KeyboardInterrupt`, the
only thing the body's `except Exception` handlers do not swallow). -/
inductive CycleInput
  | env (e : CycleEnv)
  | cancel
deriving DecidableEq, Repr

/-- The loop with cancellation: the body is total on every hardware outcome;
only the external `cancel` input ends it. -/
def runLoop (st : CState) : List CycleInput → Except Unit CState
  | [] => .ok st
  | .cancel :: _ => .error ()
  | .env e :: is => runLoop (cycle st e).1 is

/-- `true` exactly on actuator-command events. -/
def isCmdEvent : Event → Bool
  | .cmdOpen _ => true
  | .cmdClose _ => true
  | .sleep _ => false

/-- How one observable event acts on the `collector_is_open` flag: a
successful Open sets it `true`, a successful Close sets it `false`, and
nothing else touches it. -/
def applyEvent (b : Bool) : Event → Bool
  | .cmdOpen ok => if ok then true else b
  | .cmdClose ok => if ok then false else b
  | .sleep _ => b

/-- The hysteresis evaluation applied to a whole reading sequence from a
healthy controller (both handles present, servo writes succeeding), as in the
spec's hysteresis-band scenario. -/
def runReadings (isOpen : Bool) : List ℚ → Bool × List Event
  | [] => (isOpen, [])
  | a :: as =>
      let r := evalStep ⟨isOpen, true, true⟩ a .success
      let t := runReadings r.1.collector_is_open as
      (t.1, r.2 ++ t.2)

/-- The numeric configuration named by the spec (thresholds; the delays are
literal `time.sleep` arguments in the source). -/
structure ControllerConfig where
  open_threshold_m : ℚ
  close_threshold_m : ℚ
deriving DecidableEq, Repr

/-- The startup portion of `main_loop()` (collector_arduino.py lines 102-119),
generalized over the configuration: it attempts the two initializations,
closes the door when the servo came up, prints the thresholds, and proceeds to
the `while True` loop unconditionally. `some st` means the loop is entered
with state `st`; the source contains no code path that rejects a
configuration, so no input produces `none`. -/
def main_startup (_cfg : ControllerConfig) (bmeInit servoInit : Bool)
    (c : CmdOutcome) : Option CState :=
  let st0 : CState := ⟨false, false, false⟩
  let st1 := if bmeInit then { st0 with bme280_ok := true } else st0
  let st2 :=
    if servoInit then (close_collector_door { st1 with servo_ok := true } c).1
    else st1
  some st2

/-- `angle_to_duty_cycle(angle)` (meteorite_collector.py lines 64-75): clamp
the angle into [0, 180], then map affinely to a duty cycle. -/
def angle_to_duty_cycle (angle : ℚ) : ℚ :=
  let a1 := if angle < 0 then 0 else angle
  let a2 := if a1 > 180 then 180 else a1
  2.5 + (a2 / 180) * 10

/-! Concrete scenario inputs used by the claims. -/

/-- A healthy controller whose door is Open. -/
def preErrorOpen : CState := ⟨true, true, true⟩

/-- A cycle whose altitude read raises an unclassified (non-`RuntimeError`)
exception; all hardware attempts would succeed. -/
def envUnclassified : CycleEnv := ⟨true, true, .success, .otherError, .success⟩

/-- A fault-free cycle reading 19000 m, inside the hysteresis band. -/
def envBand19000 : CycleEnv := ⟨true, true, .success, .value 19000, .success⟩

/-- A fault-free cycle reading 18500 m, inside the hysteresis band. -/
def envBand18500 : CycleEnv := ⟨true, true, .success, .value 18500, .success⟩

/-- A cycle reading 25000 m (above the open threshold) whose servo write
fails. -/
def envCmdFailHigh : CycleEnv := ⟨true, true, .success, .value 25000, .failure⟩

/-- A cycle whose altitude read returns `None`. -/
def envNoneRead : CycleEnv := ⟨true, true, .success, .noneVal, .success⟩

/-- A cycle whose altitude read raises `RuntimeError` (transient I2C fault). -/
def envTransient : CycleEnv := ⟨true, true, .success, .runtimeError, .success⟩

/-- A configuration whose close threshold is not below its open threshold. -/
def badConfig : ControllerConfig := ⟨20000, 21000⟩

end Collector

namespace Collector

/-! Helper lemmas: the `collector_is_open` flag after each phase of a cycle is
exactly the fold of `applyEvent` over that phase's event trace. -/

theorem open_door_foldl (st : CState) (o : CmdOutcome) :
    (open_collector_door st o).1.collector_is_open =
      (open_collector_door st o).2.foldl applyEvent st.collector_is_open := by
  cases o <;> unfold open_collector_door <;> split <;> simp [applyEvent]

theorem close_door_foldl (st : CState) (o : CmdOutcome) :
    (close_collector_door st o).1.collector_is_open =
      (close_collector_door st o).2.foldl applyEvent st.collector_is_open := by
  cases o <;> unfold close_collector_door <;> split <;> simp [applyEvent]

theorem evalStep_foldl (st : CState) (alt : ℚ) (o : CmdOutcome) :
    (evalStep st alt o).1.collector_is_open =
      (evalStep st alt o).2.foldl applyEvent st.collector_is_open := by
  unfold evalStep
  split
  · exact open_door_foldl st o
  · split
    · exact close_door_foldl st o
    · rfl

theorem cycleRead_foldl (st : CState) (e : CycleEnv) :
    (cycleRead st e).1.collector_is_open =
      (cycleRead st e).2.foldl applyEvent st.collector_is_open := by
  obtain ⟨b1, s1, c1, r, c2⟩ := e
  cases r <;> simp [cycleRead, List.foldl_append, applyEvent]
  exact evalStep_foldl st _ _

theorem cycleServo_foldl (st : CState) (e : CycleEnv) :
    (cycleServo st e).1.collector_is_open =
      (cycleServo st e).2.foldl applyEvent st.collector_is_open := by
  unfold cycleServo
  split
  · split
    · simp [applyEvent]
    · simp only [List.foldl_cons, List.foldl_append, applyEvent]
      rw [cycleRead_foldl, close_door_foldl]
  · exact cycleRead_foldl st e

theorem cycle_foldl (st : CState) (e : CycleEnv) :
    (cycle st e).1.collector_is_open =
      (cycle st e).2.foldl applyEvent st.collector_is_open := by
  unfold cycle
  split
  · split
    · simp [applyEvent]
    · simp only [List.foldl_cons, applyEvent]
      rw [cycleServo_foldl]
  · exact cycleServo_foldl st e

/-- Claim C1: for every actuator state and altitude reading, the hysteresis
evaluation issues an Open command exactly when the state is Closed and the
reading strictly exceeds `ALTITUDE_OPEN` (20000), a Close command exactly
when the state is Open and the reading is strictly below `ALTITUDE_CLOSE`
(18000), and otherwise (including readings inside the band or exactly on a
threshold) issues nothing; and the reading sequence
`[19000, 19500, 19999]` starting Closed produces no command at all. -/
theorem C1_hysteresis_rule :
    (∀ (isOpen : Bool) (alt : ℚ) (o : CmdOutcome),
      ((∃ ok, Event.cmdOpen ok ∈ (evalStep ⟨isOpen, true, true⟩ alt o).2) ↔
        (isOpen = false ∧ alt > ALTITUDE_OPEN)) ∧
      ((∃ ok, Event.cmdClose ok ∈ (evalStep ⟨isOpen, true, true⟩ alt o).2) ↔
        (isOpen = true ∧ alt < ALTITUDE_CLOSE)) ∧
      ((evalStep ⟨isOpen, true, true⟩ alt o).2 = [] ↔
        (¬(isOpen = false ∧ alt > ALTITUDE_OPEN) ∧
         ¬(isOpen = true ∧ alt < ALTITUDE_CLOSE)))) ∧
    (runReadings false [19000, 19500, 19999]).2 = [] := by
  refine ⟨fun isOpen alt o => ?_, by decide⟩
  cases isOpen <;> cases o <;>
    by_cases h1 : alt > ALTITUDE_OPEN <;> by_cases h2 : alt < ALTITUDE_CLOSE <;>
    simp [evalStep, open_collector_door, close_collector_door, h1, h2]

/-- Claim C2: over any number of cycles with any hardware outcomes, the
`collector_is_open` flag is mutated only by successful actuator commands and
is set to exactly the commanded target: the final flag equals the fold of the
event trace (successful Open sets it, successful Close clears it, every other
event leaves it alone) over the initial flag. -/
theorem C2_actuator_state_discipline (st : CState) (es : List CycleEnv) :
    (run st es).1.collector_is_open =
      (run st es).2.foldl applyEvent st.collector_is_open := by
  induction es generalizing st with
  | nil => rfl
  | cons e es ih =>
      simp only [run, List.foldl_append]
      rw [ih, cycle_foldl]

/-- Claim C3: for every sequence of hardware outcomes -- including every kind
of read error, command failure and failed re-initialization -- the loop never
terminates: it steps to a normal next state. It ends only when an external
cancellation input is delivered at a cycle boundary. -/
theorem C3_loop_terminates_only_on_cancel :
    (∀ (st : CState) (es : List CycleEnv),
        runLoop st (es.map CycleInput.env) = Except.ok (run st es).1) ∧
    (∀ (st : CState) (inputs : List CycleInput),
        runLoop st (CycleInput.cancel :: inputs) = Except.error ()) := by
  constructor
  · intro st es
    induction es generalizing st with
    | nil => rfl
    | cons e es ih => simpa [runLoop, run] using ih (cycle st e).1
  · intro st inputs
    rfl

/-- Claim C4, counterexample: starting from a healthy Open controller, an
unclassified read error followed by a successful recovery cycle (re-inits
succeed, in-band reading 19000) leaves the door Closed -- the recovery
re-asserts the Closed command, so `ActuatorState` does NOT equal its value
from immediately before the error. -/
theorem C4_counterexample :
    (run preErrorOpen [envUnclassified, envBand19000]).1.collector_is_open ≠
      preErrorOpen.collector_is_open := by decide

/-- Claim C4, amended: an unclassified read error marks BOTH the
altitude-source and the actuator-driver Faulted, sleeps the longer 10 s delay,
skips the remainder of the cycle (no commands, `collector_is_open` untouched),
and does not crash the loop; but recovery re-asserts the Closed command, so
after a successful recovery `ActuatorState` is Closed -- it equals its
pre-error value only when that value was Closed. -/
theorem C4_unclassified_error_amended :
    (∀ (isOpen b1 s1 : Bool) (c1 c2 : CmdOutcome),
      cycle ⟨isOpen, true, true⟩ ⟨b1, s1, c1, .otherError, c2⟩ =
        (⟨isOpen, false, false⟩, [.sleep 10, .sleep 15])) ∧
    (∀ isOpen : Bool,
      (run ⟨isOpen, true, true⟩ [envUnclassified, envBand19000]).1 =
        ⟨false, true, true⟩) := by decide

/-- Claim C5, counterexample: from a healthy Closed controller reading
25000 m, the Open command is issued and its servo write fails, yet the
actuator-driver handle is still present (health Ready, not Faulted): the
failure handler only logs. -/
theorem C5_counterexample :
    Event.cmdOpen false ∈ (cycle ⟨false, true, true⟩ envCmdFailHigh).2 ∧
    (cycle ⟨false, true, true⟩ envCmdFailHigh).1.servo_ok = true := by decide

/-- Claim C5, amended: when an issued actuator command fails, the failed
command is logged and the whole controller state is left unchanged --
`collector_is_open` still reflects the last successfully commanded state, and
the actuator-driver health is NOT marked Faulted. -/
theorem C5_command_failure_amended :
    (∀ (isOpen bOk : Bool),
      open_collector_door ⟨isOpen, bOk, true⟩ .failure =
        (⟨isOpen, bOk, true⟩, [.cmdOpen false]) ∧
      close_collector_door ⟨isOpen, bOk, true⟩ .failure =
        (⟨isOpen, bOk, true⟩, [.cmdClose false])) ∧
    (∀ (isOpen : Bool) (alt : ℚ) (b1 s1 : Bool) (c1 : CmdOutcome),
      (cycle ⟨isOpen, true, true⟩ ⟨b1, s1, c1, .value alt, .failure⟩).1 =
        ⟨isOpen, true, true⟩) := by
  refine ⟨by decide, fun isOpen alt b1 s1 c1 => ?_⟩
  by_cases h1 : alt > ALTITUDE_OPEN <;> by_cases h2 : alt < ALTITUDE_CLOSE <;>
    cases isOpen <;>
    simp [cycle, cycleServo, cycleRead, evalStep, open_collector_door,
      close_collector_door, h1, h2]

/-- Claim C6, counterexample: a cycle that starts with the altitude source
Faulted and whose re-initialization SUCCEEDS still sleeps 5 s before the
attempt: its trace is `[sleep 5, sleep 15]`, not the claimed
no-extra-delay `[sleep 15]`. -/
theorem C6_counterexample :
    (cycle ⟨false, false, true⟩ envBand19000).2 = [.sleep 5, .sleep 15] ∧
    Event.sleep 5 ∈ (cycle ⟨false, false, true⟩ envBand19000).2 := by decide

/-- Claim C6, amended: in every cycle starting with a capability Faulted
(altitude source, actuator driver, or both) the controller first sleeps 5 s
(short delay) per Faulted capability and then attempts its re-initialization;
on failure it sleeps an additional 25 s and restarts the cycle without
evaluating altitude (so a failed re-init costs 5 + 25 s before the next
attempt); on success it proceeds to the rest of the same cycle (for the
actuator driver, re-asserting the Closed command first), having still
incurred the 5 s pre-attempt delay. -/
theorem C6_two_tier_backoff_amended :
    (∀ (isOpen sOk s1 : Bool) (c1 c2 : CmdOutcome) (r : ReadResult),
      cycle ⟨isOpen, false, sOk⟩ ⟨false, s1, c1, r, c2⟩ =
        (⟨isOpen, false, sOk⟩, [.sleep 5, .sleep 25])) ∧
    (∀ (isOpen b1 : Bool) (c1 c2 : CmdOutcome) (r : ReadResult),
      cycle ⟨isOpen, true, false⟩ ⟨b1, false, c1, r, c2⟩ =
        (⟨isOpen, true, false⟩, [.sleep 5, .sleep 25])) ∧
    (∀ (isOpen : Bool) (c1 c2 : CmdOutcome) (r : ReadResult),
      cycle ⟨isOpen, false, false⟩ ⟨true, false, c1, r, c2⟩ =
        (⟨isOpen, true, false⟩, [.sleep 5, .sleep 5, .sleep 25])) ∧
    (∀ (isOpen s1 : Bool) (c1 c2 : CmdOutcome) (r : ReadResult),
      cycle ⟨isOpen, false, true⟩ ⟨true, s1, c1, r, c2⟩ =
        ((cycleRead ⟨isOpen, true, true⟩ ⟨true, s1, c1, r, c2⟩).1,
          .sleep 5 :: (cycleRead ⟨isOpen, true, true⟩ ⟨true, s1, c1, r, c2⟩).2)) ∧
    (∀ (isOpen b1 : Bool) (c1 c2 : CmdOutcome) (r : ReadResult),
      cycle ⟨isOpen, true, false⟩ ⟨b1, true, c1, r, c2⟩ =
        ((cycleRead (close_collector_door ⟨isOpen, true, true⟩ c1).1
            ⟨b1, true, c1, r, c2⟩).1,
          .sleep 5 ::
            ((close_collector_door ⟨isOpen, true, true⟩ c1).2 ++
              (cycleRead (close_collector_door ⟨isOpen, true, true⟩ c1).1
                ⟨b1, true, c1, r, c2⟩).2))) ∧
    (∀ (isOpen : Bool) (c1 c2 : CmdOutcome) (r : ReadResult),
      cycle ⟨isOpen, false, false⟩ ⟨true, true, c1, r, c2⟩ =
        ((cycleRead (close_collector_door ⟨isOpen, true, true⟩ c1).1
            ⟨true, true, c1, r, c2⟩).1,
          .sleep 5 :: .sleep 5 ::
            ((close_collector_door ⟨isOpen, true, true⟩ c1).2 ++
              (cycleRead (close_collector_door ⟨isOpen, true, true⟩ c1).1
                ⟨true, true, c1, r, c2⟩).2))) := by
  exact ⟨fun _ _ _ _ _ _ => rfl, fun _ _ _ _ _ => rfl, fun _ _ _ _ => rfl,
    fun _ _ _ _ _ => rfl, fun _ _ _ _ _ => rfl, fun _ _ _ _ => rfl⟩

/-- Claim C7, counterexample: the `None`-reading cycle sleeps the 10 s fault
delay while a normal in-band cycle sleeps the 15 s poll interval -- the fault
delay is NOT longer than the poll interval. -/
theorem C7_counterexample :
    (cycle ⟨false, true, true⟩ envNoneRead).2 = [.sleep 10] ∧
    (cycle ⟨false, true, true⟩ envBand19000).2 = [.sleep 15] ∧
    ¬ (15 < 10) := by decide

/-- Claim C7, amended: when the altitude read returns `None`, the controller
mutates no state (flag and both healths unchanged), issues no command, and
skips the remainder of the cycle after a fixed 10 s fault delay -- a delay
distinct from, but SHORTER than, the 15 s poll interval. -/
theorem C7_indeterminate_reading_amended :
    (∀ (isOpen b1 s1 : Bool) (c1 c2 : CmdOutcome),
      cycle ⟨isOpen, true, true⟩ ⟨b1, s1, c1, .noneVal, c2⟩ =
        (⟨isOpen, true, true⟩, [.sleep 10])) ∧
    (10 : ℕ) ≠ 15 ∧ (10 : ℕ) < 15 := by decide

/-- Claim C8: a transient (`RuntimeError`) read marks the altitude source
Faulted and sleeps the short 5 s delay, skipping the rest of the cycle with
no command and no re-init until the next cycle; and after one transient error
followed by an in-band 18500 m reading, the controller re-initializes on the
next cycle and resumes with its original door state and no actuator command
in the whole trace. -/
theorem C8_transient_recovery :
    (∀ (isOpen b1 s1 : Bool) (c1 c2 : CmdOutcome),
      cycle ⟨isOpen, true, true⟩ ⟨b1, s1, c1, .runtimeError, c2⟩ =
        (⟨isOpen, false, true⟩, [.sleep 5, .sleep 15])) ∧
    (∀ isOpen : Bool,
      run ⟨isOpen, true, true⟩ [envTransient, envBand18500] =
        (⟨isOpen, true, true⟩, [.sleep 5, .sleep 15, .sleep 5, .sleep 15])) := by
  decide

/-- Claim C9, counterexample: a configuration whose close threshold is not
below its open threshold is still not rejected -- startup reaches the control
loop (`isSome`), because the source performs no configuration validation. -/
theorem C9_counterexample :
    badConfig.open_threshold_m ≤ badConfig.close_threshold_m ∧
    (main_startup badConfig true true .success).isSome = true := by decide

/-- Claim C9, amended: the running controller does satisfy
`ALTITUDE_CLOSE < ALTITUDE_OPEN`, but only because the hard-coded constants
(18000 < 20000) happen to; startup performs no validation and proceeds to the
control loop for EVERY configuration, including ones with
close threshold at or above open threshold. -/
theorem C9_no_startup_validation_amended :
    ALTITUDE_CLOSE < ALTITUDE_OPEN ∧
    ∀ (cfg : ControllerConfig) (b s : Bool) (c : CmdOutcome),
      (main_startup cfg b s c).isSome = true := by
  refine ⟨by decide, fun _ _ _ _ => rfl⟩

/-- Claim C10: `angle_to_duty_cycle` first clamps its argument into [0, 180]
and returns `2.5 + clamped / 180 * 10`, so every result lies in
[2.5, 12.5]; arguments below 0 give exactly 2.5 and arguments above 180 give
exactly 12.5. -/
theorem C10_angle_to_duty_cycle_range (angle : ℚ) :
    2.5 ≤ angle_to_duty_cycle angle ∧
    angle_to_duty_cycle angle ≤ 12.5 ∧
    ((angle < 0 → angle_to_duty_cycle angle = 2.5) ∧
     (180 < angle → angle_to_duty_cycle angle = 12.5)) := by
  by_cases h1 : angle < 0
  · have hv : angle_to_duty_cycle angle = 2.5 := by
      simp only [angle_to_duty_cycle]
      rw [if_pos h1, if_neg (show ¬ ((0 : ℚ) > 180) by norm_num)]
      norm_num
    exact ⟨le_of_eq hv.symm, by rw [hv]; norm_num, fun _ => hv,
      fun h => absurd h (by linarith)⟩
  · by_cases h2 : (180 : ℚ) < angle
    · have hv : angle_to_duty_cycle angle = 12.5 := by
        simp only [angle_to_duty_cycle]
        rw [if_neg h1, if_pos (show angle > 180 from h2)]
        norm_num
      exact ⟨by rw [hv]; norm_num, le_of_eq hv, fun h => absurd h h1, fun _ => hv⟩
    · push_neg at h1 h2
      have hv : angle_to_duty_cycle angle = 2.5 + (angle / 180) * 10 := by
        simp only [angle_to_duty_cycle]
        rw [if_neg (not_lt.mpr h1), if_neg (not_lt.mpr h2)]
      refine ⟨?_, ?_, fun h => absurd h (not_lt.mpr h1),
        fun h => absurd h (not_lt.mpr h2)⟩
      · rw [hv]
        have h3 : 0 ≤ angle / 180 * 10 :=
          mul_nonneg (div_nonneg h1 (by norm_num)) (by norm_num)
        linarith
      · rw [hv]
        have h3 : angle / 180 ≤ 1 := (div_le_one (by norm_num)).mpr h2
        have h4 : angle / 180 * 10 ≤ 1 * 10 :=
          mul_le_mul_of_nonneg_right h3 (by norm_num)
        linarith

end Collector
